import Mathlib

/-!
# AethraDB native library boundary

The repository exposes two C headers generated for the AethraDB shared library:

* `src/lib/AethraDB-Lib.h`          (function prototypes, for static linking)
* `src/lib/AethraDB-Lib_dynamic.h`  (function-pointer typedefs, for dynamic loading)

Part 1 embeds the declarations of both headers as data: every prototype and every
typedef becomes one record holding its line, result type, name and ordered
parameter list.  Part 2 models the staged pipeline that sits behind the
boundary; its implementation is not part of the headers, so it is modelled from
the specification text.  Part 3 holds the theorems.
-/

namespace AethraDB

/-! ## Part 1: the declarations of the two headers -/

/-- C types as they are spelled in the two headers. -/
inductive CType where
  | void
  | int
  | char
  | size_t
  | graal_isolatethread_t
  | struct (tag : String)
  | ptr (pointee : CType)
  deriving DecidableEq, Repr

/-- One entry of a parameter list: its type and, when the header gives one, its name. -/
structure Param where
  type : CType
  name : Option String
  deriving DecidableEq, Repr

/-- A function prototype `ret name(params);` of `AethraDB-Lib.h`, or a typedef
`typedef ret (*name)(params);` of `AethraDB-Lib_dynamic.h`.  `line` is the line
of the header the declaration stands on. -/
structure Decl where
  line : Nat
  ret : CType
  name : String
  params : List Param
  deriving DecidableEq, Repr

/-- An unnamed parameter, as in `(struct JNIEnv_*, size_t, ...)`. -/
def anon (t : CType) : Param := { type := t, name := none }

/-- A named parameter, as in `(int argc, char** argv)`. -/
def named (t : CType) (n : String) : Param := { type := t, name := some n }

/-- The type `struct JNIEnv_*`. -/
def jniEnvPtr : CType := .ptr (.struct "JNIEnv_")

/-- The type `graal_isolatethread_t*`: the handle of an isolate thread. -/
def isolateThreadPtr : CType := .ptr .graal_isolatethread_t

/-- The type `void *`. -/
def voidPtr : CType := .ptr .void

/-- The type `char**`. -/
def charPtrPtr : CType := .ptr (.ptr .char)

/-- Line 11 of `AethraDB-Lib.h`:
`graal_isolatethread_t* Java_AethraDB_util_AethraGenerator_createIsolate();` -/
def Java_AethraDB_util_AethraGenerator_createIsolate : Decl :=
  { line := 11
    ret := isolateThreadPtr
    name := "Java_AethraDB_util_AethraGenerator_createIsolate"
    params := [] }

/-- Line 13 of `AethraDB-Lib.h`:
`void Java_AethraDB_util_AethraGenerator_plan(struct JNIEnv_*, size_t, graal_isolatethread_t*, void *, void *);` -/
def Java_AethraDB_util_AethraGenerator_plan : Decl :=
  { line := 13
    ret := .void
    name := "Java_AethraDB_util_AethraGenerator_plan"
    params := [anon jniEnvPtr, anon .size_t, anon isolateThreadPtr, anon voidPtr, anon voidPtr] }

/-- Line 15 of `AethraDB-Lib.h`:
`void Java_AethraDB_util_AethraGenerator_codeGen(struct JNIEnv_*, size_t, graal_isolatethread_t*, int, int);` -/
def Java_AethraDB_util_AethraGenerator_codeGen : Decl :=
  { line := 15
    ret := .void
    name := "Java_AethraDB_util_AethraGenerator_codeGen"
    params := [anon jniEnvPtr, anon .size_t, anon isolateThreadPtr, anon .int, anon .int] }

/-- Line 17 of `AethraDB-Lib.h`:
`void * Java_AethraDB_util_AethraGenerator_compile(struct JNIEnv_*, size_t, graal_isolatethread_t*);` -/
def Java_AethraDB_util_AethraGenerator_compile : Decl :=
  { line := 17
    ret := voidPtr
    name := "Java_AethraDB_util_AethraGenerator_compile"
    params := [anon jniEnvPtr, anon .size_t, anon isolateThreadPtr] }

/-- Line 19 of `AethraDB-Lib.h`: `int run_main(int argc, char** argv);` -/
def run_main : Decl :=
  { line := 19
    ret := .int
    name := "run_main"
    params := [named .int "argc", named charPtrPtr "argv"] }

/-- Every function prototype of `AethraDB-Lib.h`, in the order of the file
(lines 11 to 19; the rest of the file is the include guard, one include and the
C++ linkage block). -/
def staticHeader : List Decl :=
  [ Java_AethraDB_util_AethraGenerator_createIsolate,
    Java_AethraDB_util_AethraGenerator_plan,
    Java_AethraDB_util_AethraGenerator_codeGen,
    Java_AethraDB_util_AethraGenerator_compile,
    run_main ]

/-- Line 11 of `AethraDB-Lib_dynamic.h`:
`typedef graal_isolatethread_t* (*Java_AethraDB_util_AethraGenerator_createIsolate_fn_t)();` -/
def Java_AethraDB_util_AethraGenerator_createIsolate_fn_t : Decl :=
  { line := 11
    ret := isolateThreadPtr
    name := "Java_AethraDB_util_AethraGenerator_createIsolate_fn_t"
    params := [] }

/-- Line 13 of `AethraDB-Lib_dynamic.h`:
`typedef void (*Java_AethraDB_util_AethraGenerator_plan_fn_t)(struct JNIEnv_*, size_t, graal_isolatethread_t*, void *, void *);` -/
def Java_AethraDB_util_AethraGenerator_plan_fn_t : Decl :=
  { line := 13
    ret := .void
    name := "Java_AethraDB_util_AethraGenerator_plan_fn_t"
    params := [anon jniEnvPtr, anon .size_t, anon isolateThreadPtr, anon voidPtr, anon voidPtr] }

/-- Line 15 of `AethraDB-Lib_dynamic.h`:
`typedef void (*Java_AethraDB_util_AethraGenerator_codeGen_fn_t)(struct JNIEnv_*, size_t, graal_isolatethread_t*, int, int);` -/
def Java_AethraDB_util_AethraGenerator_codeGen_fn_t : Decl :=
  { line := 15
    ret := .void
    name := "Java_AethraDB_util_AethraGenerator_codeGen_fn_t"
    params := [anon jniEnvPtr, anon .size_t, anon isolateThreadPtr, anon .int, anon .int] }

/-- Line 17 of `AethraDB-Lib_dynamic.h`:
`typedef void * (*Java_AethraDB_util_AethraGenerator_compile_fn_t)(struct JNIEnv_*, size_t, graal_isolatethread_t*);` -/
def Java_AethraDB_util_AethraGenerator_compile_fn_t : Decl :=
  { line := 17
    ret := voidPtr
    name := "Java_AethraDB_util_AethraGenerator_compile_fn_t"
    params := [anon jniEnvPtr, anon .size_t, anon isolateThreadPtr] }

/-- Line 19 of `AethraDB-Lib_dynamic.h`: `typedef int (*run_main_fn_t)(int argc, char** argv);` -/
def run_main_fn_t : Decl :=
  { line := 19
    ret := .int
    name := "run_main_fn_t"
    params := [named .int "argc", named charPtrPtr "argv"] }

/-- Every function-pointer typedef of `AethraDB-Lib_dynamic.h`, in the order of
the file.  The file holds no function prototype. -/
def dynamicHeader : List Decl :=
  [ Java_AethraDB_util_AethraGenerator_createIsolate_fn_t,
    Java_AethraDB_util_AethraGenerator_plan_fn_t,
    Java_AethraDB_util_AethraGenerator_codeGen_fn_t,
    Java_AethraDB_util_AethraGenerator_compile_fn_t,
    run_main_fn_t ]

/-! ### The text of the headers and a reader for it

The two files are kept line by line, and a small reader for the declarations
they contain turns the text into the records above. -/

/-- The lines of `src/lib/AethraDB-Lib.h`, first line first. -/
def staticHeaderText : List String :=
  [ "#ifndef __AETHRADB_LIB_H",
    "#define __AETHRADB_LIB_H",
    "",
    "#include <graal_isolate.h>",
    "",
    "",
    "#if defined(__cplusplus)",
    "extern \"C\" \x7b",
    "#endif",
    "",
    "graal_isolatethread_t* Java_AethraDB_util_AethraGenerator_createIsolate();",
    "",
    "void Java_AethraDB_util_AethraGenerator_plan(struct JNIEnv_*, size_t, graal_isolatethread_t*, void *, void *);",
    "",
    "void Java_AethraDB_util_AethraGenerator_codeGen(struct JNIEnv_*, size_t, graal_isolatethread_t*, int, int);",
    "",
    "void * Java_AethraDB_util_AethraGenerator_compile(struct JNIEnv_*, size_t, graal_isolatethread_t*);",
    "",
    "int run_main(int argc, char** argv);",
    "",
    "#if defined(__cplusplus)",
    "\x7d",
    "#endif",
    "#endif",
    "" ]

/-- The lines of `src/lib/AethraDB-Lib_dynamic.h`, first line first. -/
def dynamicHeaderText : List String :=
  [ "#ifndef __AETHRADB_LIB_H",
    "#define __AETHRADB_LIB_H",
    "",
    "#include <graal_isolate_dynamic.h>",
    "",
    "",
    "#if defined(__cplusplus)",
    "extern \"C\" \x7b",
    "#endif",
    "",
    "typedef graal_isolatethread_t* (*Java_AethraDB_util_AethraGenerator_createIsolate_fn_t)();",
    "",
    "typedef void (*Java_AethraDB_util_AethraGenerator_plan_fn_t)(struct JNIEnv_*, size_t, graal_isolatethread_t*, void *, void *);",
    "",
    "typedef void (*Java_AethraDB_util_AethraGenerator_codeGen_fn_t)(struct JNIEnv_*, size_t, graal_isolatethread_t*, int, int);",
    "",
    "typedef void * (*Java_AethraDB_util_AethraGenerator_compile_fn_t)(struct JNIEnv_*, size_t, graal_isolatethread_t*);",
    "",
    "typedef int (*run_main_fn_t)(int argc, char** argv);",
    "",
    "#if defined(__cplusplus)",
    "\x7d",
    "#endif",
    "#endif" ]

/-- Tokens of a declaration line. -/
inductive Tok where
  | ident (s : String)
  | star
  | lparen
  | rparen
  | comma
  | semi
  | other (code : Nat)
  deriving DecidableEq, Repr

/-- The token of a character that is neither part of an identifier nor a blank.
The codes are those of `*` (42), `(` (40), `)` (41), `,` (44) and `;` (59). -/
def symbolTok (c : Char) : Tok :=
  if c.toNat = 42 then .star
  else if c.toNat = 40 then .lparen
  else if c.toNat = 41 then .rparen
  else if c.toNat = 44 then .comma
  else if c.toNat = 59 then .semi
  else .other c.toNat

/-- Close the identifier collected so far (its characters are held last first). -/
def flushIdent (acc : List Char) (rest : List Tok) : List Tok :=
  if acc.isEmpty then rest else .ident (String.mk acc.reverse) :: rest

/-- Split the characters of a line into tokens; `acc` holds the identifier being
read.  Blanks and tabs separate tokens and are dropped. -/
def lexFrom : List Char → List Char → List Tok
  | acc, [] => flushIdent acc []
  | acc, c :: cs =>
    if c.isAlphanum || c.toNat = 95 then lexFrom (c :: acc) cs
    else if c.toNat = 32 || c.toNat = 9 then flushIdent acc (lexFrom [] cs)
    else flushIdent acc (symbolTok c :: lexFrom [] cs)

/-- The tokens of a line. -/
def lexLine (l : String) : List Tok := lexFrom [] l.data

/-- The type a type name of the headers stands for. -/
def baseType (s : String) : Option CType :=
  if s = "void" then some .void
  else if s = "int" then some .int
  else if s = "char" then some .char
  else if s = "size_t" then some .size_t
  else if s = "graal_isolatethread_t" then some .graal_isolatethread_t
  else none

/-- Read the `*`s that follow a type. -/
def readStars (t : CType) : List Tok → CType × List Tok
  | .star :: rest => readStars (.ptr t) rest
  | rest => (t, rest)

/-- Read a type, `struct tag` or a type name, with the `*`s that follow it;
return it with the tokens left over. -/
def readType : List Tok → Option (CType × List Tok)
  | .ident s :: rest =>
    if s = "struct" then
      match rest with
      | .ident tag :: rest2 => some (readStars (.struct tag) rest2)
      | _ => none
    else
      match baseType s with
      | some t => some (readStars t rest)
      | none => none
  | _ => none

/-- Read one parameter: a type, then nothing or the parameter name. -/
def readParam (ts : List Tok) : Option Param :=
  match readType ts with
  | some (t, []) => some (anon t)
  | some (t, [.ident n]) => some (named t n)
  | _ => none

/-- Cut a token list at its commas. -/
def splitCommas : List Tok → List (List Tok)
  | [] => [[]]
  | .comma :: rest => [] :: splitCommas rest
  | t :: rest =>
    match splitCommas rest with
    | [] => [[t]]
    | g :: gs => (t :: g) :: gs

/-- Read each group of tokens as a parameter; fail when one of them fails. -/
def readParamList : List (List Tok) → Option (List Param)
  | [] => some []
  | g :: gs =>
    match readParam g, readParamList gs with
    | some p, some ps => some (p :: ps)
    | _, _ => none

/-- Read what stands after the opening parenthesis of a parameter list, up to
the closing `);` that ends the line.  An empty list `()` has no parameter. -/
def readParams (ts : List Tok) : Option (List Param) :=
  match ts.reverse with
  | .semi :: .rparen :: inner =>
    if inner.isEmpty then some [] else readParamList (splitCommas inner.reverse)
  | _ => none

/-- Read a function prototype `ret name(params);` standing on line `line`. -/
def readPrototype (line : Nat) (ts : List Tok) : Option Decl :=
  match readType ts with
  | some (ret, .ident name :: .lparen :: rest) =>
    match readParams rest with
    | some ps => some { line := line, ret := ret, name := name, params := ps }
    | none => none
  | _ => none

/-- Read a function-pointer typedef `typedef ret (*name)(params);` standing on
line `line`; `ts` is what follows the word `typedef`. -/
def readTypedef (line : Nat) (ts : List Tok) : Option Decl :=
  match readType ts with
  | some (ret, .lparen :: .star :: .ident name :: .rparen :: .lparen :: rest) =>
    match readParams rest with
    | some ps => some { line := line, ret := ret, name := name, params := ps }
    | none => none
  | _ => none

/-- What a header declares: its function prototypes and its typedefs, in the
order of the file. -/
structure Header where
  prototypes : List Decl
  typedefs : List Decl
  deriving DecidableEq, Repr

/-- A line that declares nothing: an empty line, a preprocessor directive
(first token `#`, code 35), the opening `extern "C" \x7b` of the C++ linkage
block or its closing brace (code 125). -/
def declaresNothing (ts : List Tok) : Bool :=
  match ts with
  | [] => true
  | .other 35 :: _ => true
  | [.ident "extern", .other 34, .ident "C", .other 34, .other 123] => true
  | [.other 125] => true
  | _ => false

/-- Read the lines of a header, the first of them being line `line`.  Every
line has to be understood: the result is `none` as soon as one line is neither
a line that declares nothing, nor a prototype, nor a function-pointer typedef. -/
def readLines : Nat → List String → Option Header
  | _, [] => some { prototypes := [], typedefs := [] }
  | line, l :: ls =>
    match readLines (line + 1) ls with
    | none => none
    | some h =>
      let ts := lexLine l
      if declaresNothing ts then some h
      else
        match ts with
        | .ident w :: rest =>
          if w = "typedef" then
            match readTypedef line rest with
            | some d => some { h with typedefs := d :: h.typedefs }
            | none => none
          else
            match readPrototype line ts with
            | some d => some { h with prototypes := d :: h.prototypes }
            | none => none
        | _ => none

/-- Read a whole header; its first line is line 1. -/
def readHeader (text : List String) : Option Header := readLines 1 text

/-- The declarations of a header text, prototypes and typedefs, that carry the
name `n`. -/
def declared (text : List String) (n : String) : List Decl :=
  match readHeader text with
  | some h => (h.prototypes ++ h.typedefs).filter (fun d => decide (d.name = n))
  | none => []

/-! ### Reading a declaration -/

/-- The ordered list of parameter types of a declaration. -/
def Decl.paramTypes (d : Decl) : List CType := d.params.map Param.type

/-- The result type is not `void`: the function can report something through
its result. -/
def Decl.hasResult (d : Decl) : Bool := decide (d.ret ≠ CType.void)

/-- Some parameter is a context handle `graal_isolatethread_t*`. -/
def Decl.hasContextParam (d : Decl) : Bool := d.paramTypes.contains isolateThreadPtr

/-- The integer types of the headers: what a count, a length, a selector or a
bitmask can be passed as. -/
def CType.isInteger : CType → Bool
  | .int => true
  | .size_t => true
  | _ => false

/-- Pointer types. -/
def CType.isPointer : CType → Bool
  | .ptr _ => true
  | _ => false

/-- The parameter types the pipeline itself receives: a leading
`struct JNIEnv_*, size_t` pair (the environment pointer and the class reference
every `Java_...` native method receives before its own arguments) belongs to the
calling convention and is dropped. -/
def Decl.pipelineInputs (d : Decl) : List CType :=
  match d.paramTypes with
  | e :: c :: rest => if e = jniEnvPtr ∧ c = CType.size_t then rest else e :: c :: rest
  | ts => ts

/-- The parameter types that follow the first context handle, when there is one. -/
def afterContext : List CType → Option (List CType)
  | [] => none
  | t :: rest => if t = isolateThreadPtr then some rest else afterContext rest

/-- The name the dynamic header gives to the typedef of the function called `f`. -/
def fnTypeName (f : String) : String := f ++ "_fn_t"

/-- A typedef `t` is the counterpart of the prototype `f`: it carries the name of
`f` with `_fn_t` appended, the same result type and the same ordered list of
parameter types. -/
def matchesPrototype (f t : Decl) : Bool :=
  decide (t.name = fnTypeName f.name) && decide (t.ret = f.ret) &&
    decide (t.paramTypes = f.paramTypes)

/-! ## Part 2: the staged pipeline behind the boundary

The headers only declare the entry points.  The behaviour of the stages
(what they keep in the context, when they fail and with which error) is code of
the library that is not among the sources, so it is modelled here from the
specification: sections 3 (data model), 4 (component contracts) and 7 (errors). -/

namespace Pipeline

deriving instance DecidableEq for Except

/-- Modelled from the spec: the error taxonomy of section 7; the headers declare
no error type.  `FatalCrash` stands for the crash of a compiled artifact during
execution. -/
inductive PipelineError where
  | ContextInitError
  | PlanParseError (offset : Nat) (reason : String)
  | NoPlanError
  | NoGeneratedSourceError
  | NoCompiledArtifactError
  | UnsupportedStageError
  | CompileError (diagnostic : String)
  | FatalCrash
  deriving DecidableEq, Repr

/-- Modelled from the spec: the Generated Source Artifact of section 3, source
material (a byte sequence) plus the configuration implied by the generation
request, which is the stage selector and the flags it was produced for.  The
headers do not declare it. -/
structure GeneratedSource where
  source : List Nat
  stage : Int
  flags : Int
  deriving DecidableEq, Repr

/-- Modelled from the spec: everything the specification leaves to the
implementer or to an external collaborator, none of which the headers define.
`IR` is the pipeline-internal plan representation and `Artifact` the compiled
artifact handle.

* `parse`: the plan serialization format (section 6); a failure carries the
  byte offset and the reason.
* `definedFlags`: the closed enumeration of stages (section 3): `none` for an
  integer that is not an enumerated stage, otherwise the mask of the bit flags
  defined for that stage.
* `lower`: the lowering of an IR to source bytes for a stage and flags.
* `cc`: the external compiler; a failure carries its diagnostic text.
* `run`: the entry point of a compiled artifact, from an argument list to an
  exit status; `none` is a crash. -/
structure Collaborators (IR Artifact : Type) where
  parse : List Nat → Except (Nat × String) IR
  definedFlags : Int → Option Int
  lower : IR → Int → Int → List Nat
  cc : GeneratedSource → Except String Artifact
  run : Artifact → List String → Option Int

/-- Modelled from the spec: the Isolate Context of section 3, which holds the
current IR (if ingested), the most recent generated source artifact (if
generated) and the most recent compiled artifact handle (if compiled).  The
headers only declare the handle type `graal_isolatethread_t*`. -/
structure Context (IR Artifact : Type) where
  ir : Option IR
  generated : Option GeneratedSource
  compiled : Option Artifact
  deriving DecidableEq, Repr

variable {IR Artifact : Type}

/-- Modelled from the spec: the fresh, empty context of section 4.1. -/
def Context.empty : Context IR Artifact :=
  { ir := none, generated := none, compiled := none }

/-- Modelled from the spec: `create()` of section 4.1, the behaviour behind
`Java_AethraDB_util_AethraGenerator_createIsolate`.  It returns a fresh, empty
context, or fails with `ContextInitError` when the execution environment cannot
be allocated (`available = false`). -/
def create (available : Bool) : Except PipelineError (Context IR Artifact) :=
  if available then .ok Context.empty else .error .ContextInitError

/-- Modelled from the spec: `ingest(context, planBuffer)` of section 4.2, the
behaviour behind `Java_AethraDB_util_AethraGenerator_plan`.  On success the new
IR is installed and any prior generated or compiled state is released; a parse
failure is a `PlanParseError` with offset and reason, and it too releases the
previous state and leaves no IR. -/
def ingest (env : Collaborators IR Artifact) (_ctx : Context IR Artifact)
    (planBuffer : List Nat) : Except PipelineError Unit × Context IR Artifact :=
  match env.parse planBuffer with
  | .ok ir => (.ok (), { ir := some ir, generated := none, compiled := none })
  | .error (offset, reason) =>
    (.error (.PlanParseError offset reason), { ir := none, generated := none, compiled := none })

/-- Modelled from the spec: the test of section 4.3 on a generation request.
The stage has to be an enumerated one and the flags a subset of the bit flags
defined for that stage. -/
def validRequest (env : Collaborators IR Artifact) (stage flags : Int) : Bool :=
  match env.definedFlags stage with
  | none => false
  | some mask => decide (Int.land flags mask = flags)

/-- Modelled from the spec: `generate(context, stage, flags)` of section 4.3,
the behaviour behind `Java_AethraDB_util_AethraGenerator_codeGen`.  It requires
a live IR (else `NoPlanError`); an unsupported stage or flag combination fails
with `UnsupportedStageError`; a failure leaves the context as it was.  On
success the generated source replaces the prior one and the prior compiled
artifact is invalidated. -/
def generate (env : Collaborators IR Artifact) (ctx : Context IR Artifact)
    (stage flags : Int) : Except PipelineError Unit × Context IR Artifact :=
  match ctx.ir with
  | none => (.error .NoPlanError, ctx)
  | some ir =>
    if validRequest env stage flags then
      (.ok (), { ctx with
                  generated := some { source := env.lower ir stage flags, stage := stage, flags := flags }
                  compiled := none })
    else (.error .UnsupportedStageError, ctx)

/-- Modelled from the spec: `compile(context)` of section 4.4, the behaviour
behind `Java_AethraDB_util_AethraGenerator_compile`.  It requires a live
generated source (else `NoGeneratedSourceError`), hands it to the external
compiler and installs the new handle; a compiler failure is a `CompileError`
with the diagnostic text verbatim and leaves the context as it was. -/
def compile (env : Collaborators IR Artifact) (ctx : Context IR Artifact) :
    Except PipelineError Artifact × Context IR Artifact :=
  match ctx.generated with
  | none => (.error .NoGeneratedSourceError, ctx)
  | some g =>
    match env.cc g with
    | .ok h => (.ok h, { ctx with compiled := some h })
    | .error diagnostic => (.error (.CompileError diagnostic), ctx)

/-- Modelled from the spec: `execute(context, args)` of section 4.5, the
behaviour behind `run_main`.  It requires a live compiled artifact (else
`NoCompiledArtifactError`) and returns the exit status of its entry point.
A crash inside the artifact is reported as `FatalCrash`; the specification
treats the context as unusable afterwards and says nothing more about it. -/
def execute (env : Collaborators IR Artifact) (ctx : Context IR Artifact)
    (args : List String) : Except PipelineError Int × Context IR Artifact :=
  match ctx.compiled with
  | none => (.error .NoCompiledArtifactError, ctx)
  | some h =>
    match env.run h args with
    | some status => (.ok status, ctx)
    | none => (.error .FatalCrash, ctx)

/-- Modelled from the spec: one call of a staged operation on a context, with
its arguments. -/
inductive Op where
  | ingest (planBuffer : List Nat)
  | generate (stage flags : Int)
  | compile
  | execute (args : List String)
  deriving DecidableEq, Repr

/-- The call is an ingestion. -/
def Op.isIngest : Op → Bool
  | .ingest _ => true
  | _ => false

/-- The call is a code generation. -/
def Op.isGenerate : Op → Bool
  | .generate _ _ => true
  | _ => false

/-- The call is a compilation. -/
def Op.isCompile : Op → Bool
  | .compile => true
  | _ => false

/-- Whether a result is a success. -/
def succeeds {α : Type} : Except PipelineError α → Bool
  | .ok _ => true
  | .error _ => false

/-- Perform one call: whether it succeeded, and the context it leaves. -/
def step (env : Collaborators IR Artifact) (ctx : Context IR Artifact) :
    Op → Bool × Context IR Artifact
  | .ingest planBuffer => let r := ingest env ctx planBuffer; (succeeds r.1, r.2)
  | .generate stage flags => let r := generate env ctx stage flags; (succeeds r.1, r.2)
  | .compile => let r := compile env ctx; (succeeds r.1, r.2)
  | .execute args => let r := execute env ctx args; (succeeds r.1, r.2)

/-- The context left by a sequence of calls made one after the other. -/
def runOps (env : Collaborators IR Artifact) :
    Context IR Artifact → List Op → Context IR Artifact
  | ctx, [] => ctx
  | ctx, op :: ops => runOps env (step env ctx op).2 ops

/-- The calls of a sequence that succeeded, in order. -/
def succeeded (env : Collaborators IR Artifact) :
    Context IR Artifact → List Op → List Op
  | _, [] => []
  | ctx, op :: ops =>
    if (step env ctx op).1 then op :: succeeded env (step env ctx op).2 ops
    else succeeded env (step env ctx op).2 ops

/-! ### A concrete pipeline, to evaluate the model on examples -/

/-- A plan format for the examples: the first byte is the number of operators,
followed by exactly that many operator tags, each of them 0 (scan), 1 (filter)
or 2 (project).  The IR is the list of tags. -/
def sampleParse : List Nat → Except (Nat × String) (List Nat)
  | [] => .error (0, "missing length")
  | n :: tags =>
    if tags.length < n then .error (1 + tags.length, "truncated buffer")
    else if n < tags.length then .error (1 + n, "trailing bytes")
    else
      match tags.findIdx? (fun t => decide (2 < t)) with
      | some i => .error (1 + i, "unknown operator tag")
      | none => .ok tags

/-- Collaborators for the examples: stage 0 (scalar) defines the flag bits 1 and
2, stage 1 (vectorized) defines the flag bit 1; the generated source is the
stage, the flags as a natural number and the operator tags; the compiler
rejects a plan without operators; the artifact exits with the number of its
arguments. -/
def sampleEnv : Collaborators (List Nat) (List Nat) where
  parse := sampleParse
  definedFlags := fun stage => if stage = 0 then some 3 else if stage = 1 then some 1 else none
  lower := fun ir stage flags => stage.toNat :: flags.toNat :: ir
  cc := fun g => if g.source.length ≤ 2 then .error "empty plan" else .ok (g.source.map (· + 1))
  run := fun _ args => some args.length

/-- A plan buffer for the examples: scan, filter, project. -/
def samplePlan : List Nat := [3, 0, 1, 2]

end Pipeline

end AethraDB

/-! ## Part 3: theorems -/

namespace AethraDB

/-! ### The headers -/

/-- Reading the text of `AethraDB-Lib.h` yields the five prototypes of
`staticHeader` and no typedef. -/
theorem readHeader_static :
    readHeader staticHeaderText = some { prototypes := staticHeader, typedefs := [] } := by
  decide

/-- Reading the text of `AethraDB-Lib_dynamic.h` yields the five typedefs of
`dynamicHeader` and no prototype. -/
theorem readHeader_dynamic :
    readHeader dynamicHeaderText = some { prototypes := [], typedefs := dynamicHeader } := by
  decide

/-! ### The declared signatures -/

/-- C1, as the code has it: `AethraDB-Lib.h` declares exactly one `run_main`,
with the parameter list `(int argc, char** argv)` and the result type `int`;
no parameter of it is a context handle `graal_isolatethread_t*`. -/
theorem run_main_signature :
    declared staticHeaderText "run_main" = [run_main] ∧
    run_main.params = [named CType.int "argc", named charPtrPtr "argv"] ∧
    run_main.ret = CType.int ∧
    run_main.hasContextParam = false := by
  decide

/-- C1 fails as stated: the parameter list of the `run_main` declared in
`AethraDB-Lib.h` does not contain a context handle in addition to `argc` and
`argv`. -/
theorem run_main_takes_no_context :
    declared staticHeaderText "run_main" = [run_main] ∧
    ¬ (run_main.hasContextParam = true ∧ CType.int ∈ run_main.paramTypes ∧
        charPtrPtr ∈ run_main.paramTypes ∧ run_main.ret = CType.int) := by
  decide

/-- C2, as the code has it: `AethraDB-Lib.h` declares exactly one
`Java_AethraDB_util_AethraGenerator_plan`, with the parameter types
`struct JNIEnv_*, size_t, graal_isolatethread_t*, void *, void *`: a context
handle followed by two untyped pointers and by no integer, and the result type
is `void`, so nothing is reported through the result. -/
theorem plan_signature :
    declared staticHeaderText "Java_AethraDB_util_AethraGenerator_plan"
      = [Java_AethraDB_util_AethraGenerator_plan] ∧
    Java_AethraDB_util_AethraGenerator_plan.paramTypes
      = [jniEnvPtr, CType.size_t, isolateThreadPtr, voidPtr, voidPtr] ∧
    Java_AethraDB_util_AethraGenerator_plan.hasContextParam = true ∧
    afterContext Java_AethraDB_util_AethraGenerator_plan.paramTypes = some [voidPtr, voidPtr] ∧
    Java_AethraDB_util_AethraGenerator_plan.pipelineInputs.any CType.isInteger = false ∧
    Java_AethraDB_util_AethraGenerator_plan.ret = CType.void ∧
    Java_AethraDB_util_AethraGenerator_plan.hasResult = false := by
  decide

/-- C2 fails as stated: the declared signature of
`Java_AethraDB_util_AethraGenerator_plan` does not have, together, a context
handle, a pointer, an integer and a non-void result (whichever pointer and
integer parameter are taken for the buffer and its length): the result type is
`void`. -/
theorem plan_returns_no_success_marker :
    declared staticHeaderText "Java_AethraDB_util_AethraGenerator_plan"
      = [Java_AethraDB_util_AethraGenerator_plan] ∧
    ¬ (Java_AethraDB_util_AethraGenerator_plan.hasContextParam = true ∧
        Java_AethraDB_util_AethraGenerator_plan.paramTypes.any CType.isPointer = true ∧
        Java_AethraDB_util_AethraGenerator_plan.paramTypes.any CType.isInteger = true ∧
        Java_AethraDB_util_AethraGenerator_plan.hasResult = true) := by
  decide

/-- C3, as the code has it: `AethraDB-Lib.h` declares exactly one
`Java_AethraDB_util_AethraGenerator_codeGen`; its parameter list has a
`graal_isolatethread_t*` followed by exactly two `int` parameters, which are
its only `int` parameters, and its result type is `void`, so nothing is
reported through the result. -/
theorem codeGen_signature :
    declared staticHeaderText "Java_AethraDB_util_AethraGenerator_codeGen"
      = [Java_AethraDB_util_AethraGenerator_codeGen] ∧
    afterContext Java_AethraDB_util_AethraGenerator_codeGen.paramTypes
      = some [CType.int, CType.int] ∧
    (Java_AethraDB_util_AethraGenerator_codeGen.paramTypes.filter
      (fun t => decide (t = CType.int))).length = 2 ∧
    Java_AethraDB_util_AethraGenerator_codeGen.ret = CType.void ∧
    Java_AethraDB_util_AethraGenerator_codeGen.hasResult = false := by
  decide

/-- C3 fails as stated: the declared signature of
`Java_AethraDB_util_AethraGenerator_codeGen` does not have both a context handle
followed by exactly two `int` parameters and a non-void result: the result type
is `void`. -/
theorem codeGen_returns_no_success_marker :
    declared staticHeaderText "Java_AethraDB_util_AethraGenerator_codeGen"
      = [Java_AethraDB_util_AethraGenerator_codeGen] ∧
    ¬ (afterContext Java_AethraDB_util_AethraGenerator_codeGen.paramTypes
          = some [CType.int, CType.int] ∧
        Java_AethraDB_util_AethraGenerator_codeGen.hasResult = true) := by
  decide

/-- C4: `AethraDB-Lib.h` declares exactly one
`Java_AethraDB_util_AethraGenerator_compile`; after the environment pointer and
class reference of the calling convention its only input is the context handle
(no `int` for a stage or flags, no pointer to a source), and its result type is
the untyped handle `void *`. -/
theorem compile_signature :
    declared staticHeaderText "Java_AethraDB_util_AethraGenerator_compile"
      = [Java_AethraDB_util_AethraGenerator_compile] ∧
    Java_AethraDB_util_AethraGenerator_compile.pipelineInputs = [isolateThreadPtr] ∧
    Java_AethraDB_util_AethraGenerator_compile.paramTypes.contains CType.int = false ∧
    Java_AethraDB_util_AethraGenerator_compile.paramTypes.filter CType.isPointer
      = [jniEnvPtr, isolateThreadPtr] ∧
    Java_AethraDB_util_AethraGenerator_compile.ret = voidPtr := by
  decide

/-- C5: `AethraDB-Lib.h` declares exactly five functions and nothing else:
`Java_AethraDB_util_AethraGenerator_createIsolate`, which has an empty parameter
list and returns a context handle `graal_isolatethread_t*`, then the four staged
entry points `..._plan`, `..._codeGen`, `..._compile` and `run_main`.  The
dynamic header declares no function at all. -/
theorem boundary_declares_five_operations :
    readHeader staticHeaderText = some { prototypes := staticHeader, typedefs := [] } ∧
    staticHeader.map Decl.name =
      [ "Java_AethraDB_util_AethraGenerator_createIsolate",
        "Java_AethraDB_util_AethraGenerator_plan",
        "Java_AethraDB_util_AethraGenerator_codeGen",
        "Java_AethraDB_util_AethraGenerator_compile",
        "run_main" ] ∧
    staticHeader.length = 5 ∧
    Java_AethraDB_util_AethraGenerator_createIsolate.params = [] ∧
    Java_AethraDB_util_AethraGenerator_createIsolate.ret = isolateThreadPtr ∧
    staticHeader.filter (fun d => d.params.isEmpty && decide (d.ret = isolateThreadPtr))
      = [Java_AethraDB_util_AethraGenerator_createIsolate] ∧
    (readHeader dynamicHeaderText).map Header.prototypes = some [] := by
  decide

/-- C10: the two headers describe the same interface.  Every function declared
in `AethraDB-Lib.h` has exactly one typedef in `AethraDB-Lib_dynamic.h` named
after it with `_fn_t` appended, and that typedef has the same result type and
the same ordered parameter list; every typedef of the dynamic header is the
counterpart of a function of the static header. -/
theorem headers_describe_same_interface :
    readHeader staticHeaderText = some { prototypes := staticHeader, typedefs := [] } ∧
    readHeader dynamicHeaderText = some { prototypes := [], typedefs := dynamicHeader } ∧
    staticHeader.all (fun f =>
      decide ((dynamicHeader.filter (fun t => decide (t.name = fnTypeName f.name))).length = 1) &&
      decide ((dynamicHeader.filter (matchesPrototype f)).length = 1)) = true ∧
    dynamicHeader.all (fun t =>
      decide ((staticHeader.filter (fun f => matchesPrototype f t)).length = 1)) = true ∧
    dynamicHeader.map (fun t => (t.ret, t.params)) = staticHeader.map (fun f => (f.ret, f.params)) ∧
    dynamicHeader.map Decl.name = staticHeader.map (fun f => fnTypeName f.name) := by
  decide

namespace Pipeline

variable {IR Artifact : Type}

/-! ### Which fields a call can fill -/

/-- A call that is not a successful ingestion leaves a context without IR
without IR. -/
theorem step_ir_none (env : Collaborators IR Artifact) (ctx : Context IR Artifact) (op : Op)
    (hctx : ctx.ir = none) (hop : (step env ctx op).1 = true → op.isIngest = false) :
    (step env ctx op).2.ir = none := by
  cases op with
  | ingest buf =>
    cases hp : env.parse buf with
    | ok ir => simp [step, ingest, hp, succeeds, Op.isIngest] at hop
    | error e => simp [step, ingest, hp]
  | generate stage flags => simp [step, generate, hctx]
  | compile =>
    simp only [step, compile]
    split
    · exact hctx
    · split <;> exact hctx
  | execute args =>
    simp only [step, execute]
    split
    · exact hctx
    · split <;> exact hctx

/-- A call that is not a successful generation leaves a context without
generated source without generated source. -/
theorem step_generated_none (env : Collaborators IR Artifact) (ctx : Context IR Artifact)
    (op : Op) (hctx : ctx.generated = none)
    (hop : (step env ctx op).1 = true → op.isGenerate = false) :
    (step env ctx op).2.generated = none := by
  cases op with
  | ingest buf =>
    simp only [step, ingest]
    split <;> rfl
  | generate stage flags =>
    simp only [step, generate] at hop ⊢
    split
    · exact hctx
    · split
      · rename_i hir hv
        simp [hir, hv, succeeds, Op.isGenerate] at hop
      · exact hctx
  | compile => simp [step, compile, hctx]
  | execute args =>
    simp only [step, execute]
    split
    · exact hctx
    · split <;> exact hctx

/-- A call that is not a successful compilation leaves a context without
compiled artifact without compiled artifact. -/
theorem step_compiled_none (env : Collaborators IR Artifact) (ctx : Context IR Artifact)
    (op : Op) (hctx : ctx.compiled = none)
    (hop : (step env ctx op).1 = true → op.isCompile = false) :
    (step env ctx op).2.compiled = none := by
  cases op with
  | ingest buf =>
    simp only [step, ingest]
    split <;> rfl
  | generate stage flags =>
    simp only [step, generate]
    split
    · exact hctx
    · split
      · rfl
      · exact hctx
  | compile =>
    simp only [step, compile] at hop ⊢
    split
    · exact hctx
    · split
      · rename_i hg _ h hc
        simp [hg, hc, succeeds, Op.isCompile] at hop
      · exact hctx
  | execute args => simp [step, execute, hctx]

/-- In a context without generated source, a compilation does not succeed. -/
theorem step_compile_fails (env : Collaborators IR Artifact) (ctx : Context IR Artifact)
    (op : Op) (hctx : ctx.generated = none) (hop : op.isCompile = true) :
    (step env ctx op).1 = false := by
  cases op with
  | compile => simp [step, compile, hctx, succeeds]
  | ingest buf => simp [Op.isCompile] at hop
  | generate stage flags => simp [Op.isCompile] at hop
  | execute args => simp [Op.isCompile] at hop

/-- The calls that succeeded from the context left by the first call are among
those that succeeded from the start. -/
theorem succeeded_tail (env : Collaborators IR Artifact) (ctx : Context IR Artifact)
    (op : Op) (ops : List Op) (o : Op)
    (ho : o ∈ succeeded env (step env ctx op).2 ops) : o ∈ succeeded env ctx (op :: ops) := by
  unfold succeeded
  split
  · exact List.mem_cons_of_mem _ ho
  · exact ho

/-- A first call that succeeded is among the calls that succeeded. -/
theorem succeeded_head (env : Collaborators IR Artifact) (ctx : Context IR Artifact)
    (op : Op) (ops : List Op) (h : (step env ctx op).1 = true) :
    op ∈ succeeded env ctx (op :: ops) := by
  unfold succeeded
  simp [h]

/-- Without a successful ingestion, a context without IR stays without IR. -/
theorem runOps_ir_none (env : Collaborators IR Artifact) (ops : List Op) :
    ∀ ctx : Context IR Artifact, ctx.ir = none →
      (∀ op ∈ succeeded env ctx ops, op.isIngest = false) → (runOps env ctx ops).ir = none := by
  induction ops with
  | nil => intro ctx h _; exact h
  | cons op ops ih =>
    intro ctx h hs
    exact ih _ (step_ir_none env ctx op h (fun hok => hs op (succeeded_head env ctx op ops hok)))
      (fun o ho => hs o (succeeded_tail env ctx op ops o ho))

/-- Without a successful generation, a context without generated source stays
without generated source. -/
theorem runOps_generated_none (env : Collaborators IR Artifact) (ops : List Op) :
    ∀ ctx : Context IR Artifact, ctx.generated = none →
      (∀ op ∈ succeeded env ctx ops, op.isGenerate = false) →
      (runOps env ctx ops).generated = none := by
  induction ops with
  | nil => intro ctx h _; exact h
  | cons op ops ih =>
    intro ctx h hs
    exact ih _
      (step_generated_none env ctx op h (fun hok => hs op (succeeded_head env ctx op ops hok)))
      (fun o ho => hs o (succeeded_tail env ctx op ops o ho))

/-- Without a successful compilation, a context without compiled artifact stays
without compiled artifact. -/
theorem runOps_compiled_none (env : Collaborators IR Artifact) (ops : List Op) :
    ∀ ctx : Context IR Artifact, ctx.compiled = none →
      (∀ op ∈ succeeded env ctx ops, op.isCompile = false) →
      (runOps env ctx ops).compiled = none := by
  induction ops with
  | nil => intro ctx h _; exact h
  | cons op ops ih =>
    intro ctx h hs
    exact ih _
      (step_compiled_none env ctx op h (fun hok => hs op (succeeded_head env ctx op ops hok)))
      (fun o ho => hs o (succeeded_tail env ctx op ops o ho))

/-- Without a successful generation, a context with neither generated source
nor compiled artifact stays so: no compilation can succeed on the way. -/
theorem runOps_nothing_built (env : Collaborators IR Artifact) (ops : List Op) :
    ∀ ctx : Context IR Artifact, ctx.generated = none → ctx.compiled = none →
      (∀ op ∈ succeeded env ctx ops, op.isGenerate = false) →
      (runOps env ctx ops).compiled = none := by
  induction ops with
  | nil => intro ctx _ h _; exact h
  | cons op ops ih =>
    intro ctx hg hc hs
    refine ih _
      (step_generated_none env ctx op hg (fun hok => hs op (succeeded_head env ctx op ops hok)))
      (step_compiled_none env ctx op hc ?_)
      (fun o ho => hs o (succeeded_tail env ctx op ops o ho))
    intro hok
    cases hcomp : op.isCompile with
    | false => rfl
    | true => rw [step_compile_fails env ctx op hg hcomp] at hok; cases hok

/-! ### The staged pipeline -/

/-- One call of any `generate` cannot fail with `NoPlanError` and with
`UnsupportedStageError` at once: on a context without plan and a stage outside
the enumerated set, only one of the two failures the specification names can be
reported. -/
theorem ordering_and_stage_failures_collide
    (gen : Context IR Artifact → Int → Int → Except PipelineError Unit × Context IR Artifact)
    (ctx : Context IR Artifact) (stage flags : Int) :
    ¬ ((gen ctx stage flags).1 = Except.error PipelineError.NoPlanError ∧
        (gen ctx stage flags).1 = Except.error PipelineError.UnsupportedStageError) := by
  rintro ⟨h₁, h₂⟩
  rw [h₁] at h₂
  cases h₂

/-- C6: stage-ordering violations are failures.  For every context, that is
the context returned by `create` after any sequence of calls: if no ingestion
succeeded so far, `generate` fails with `NoPlanError`; if no generation
succeeded so far, `compile` fails with `NoGeneratedSourceError`; if no
compilation succeeded so far, `execute` fails with `NoCompiledArtifactError`. -/
theorem stage_ordering_violations_fail (env : Collaborators IR Artifact) (available : Bool)
    (fresh : Context IR Artifact) (hfresh : create available = Except.ok fresh)
    (ops : List Op) :
    ((∀ op ∈ succeeded env fresh ops, op.isIngest = false) →
      ∀ stage flags : Int,
        (generate env (runOps env fresh ops) stage flags).1
          = Except.error PipelineError.NoPlanError) ∧
    ((∀ op ∈ succeeded env fresh ops, op.isGenerate = false) →
      (compile env (runOps env fresh ops)).1
        = Except.error PipelineError.NoGeneratedSourceError) ∧
    ((∀ op ∈ succeeded env fresh ops, op.isCompile = false) →
      ∀ args : List String,
        (execute env (runOps env fresh ops) args).1
          = Except.error PipelineError.NoCompiledArtifactError) := by
  have hempty : fresh = Context.empty := by
    cases available with
    | true => simp [create] at hfresh; exact hfresh.symm
    | false => simp [create] at hfresh
  subst hempty
  refine ⟨?_, ?_, ?_⟩
  · intro h stage flags
    have hir := runOps_ir_none env ops Context.empty rfl h
    simp [generate, hir]
  · intro h
    have hg := runOps_generated_none env ops Context.empty rfl h
    simp [compile, hg]
  · intro h args
    have hc := runOps_compiled_none env ops Context.empty rfl h
    simp [execute, hc]

/-- C6 on the example pipeline: after a rejected plan `generate` fails with
`NoPlanError`; after an accepted plan and a rejected generation request
`compile` fails with `NoGeneratedSourceError`; after an accepted plan, a
generation and a rejected compilation `execute` fails with
`NoCompiledArtifactError`. -/
theorem stage_ordering_violations_fail_witness :
    (generate sampleEnv
        (runOps sampleEnv Context.empty [Op.ingest [3, 0], Op.compile, Op.execute []]) 0 0).1
      = Except.error PipelineError.NoPlanError ∧
    (compile sampleEnv
        (runOps sampleEnv Context.empty [Op.ingest samplePlan, Op.generate 7 0, Op.execute []])).1
      = Except.error PipelineError.NoGeneratedSourceError ∧
    (execute sampleEnv
        (runOps sampleEnv Context.empty [Op.ingest [0], Op.generate 0 0, Op.compile]) ["a"]).1
      = Except.error PipelineError.NoCompiledArtifactError :=
  ⟨(stage_ordering_violations_fail sampleEnv true Context.empty rfl
      [Op.ingest [3, 0], Op.compile, Op.execute []]).1 (by decide) 0 0,
   (stage_ordering_violations_fail sampleEnv true Context.empty rfl
      [Op.ingest samplePlan, Op.generate 7 0, Op.execute []]).2.1 (by decide),
   (stage_ordering_violations_fail sampleEnv true Context.empty rfl
      [Op.ingest [0], Op.generate 0 0, Op.compile]).2.2 (by decide) ["a"]⟩

/-- C8: re-ingestion invalidates later-stage state.  For every context that
holds a compiled artifact, `ingest` (accepted or rejected) leaves the context
without compiled artifact, and after any further calls among which no
generation succeeded or no compilation succeeded, `execute` fails with
`NoCompiledArtifactError`. -/
theorem reingest_invalidates_compiled (env : Collaborators IR Artifact)
    (ctx : Context IR Artifact) (_hctx : ctx.compiled.isSome = true) (P : List Nat) :
    (ingest env ctx P).2.compiled = none ∧
    ∀ ops : List Op,
      ((∀ op ∈ succeeded env (ingest env ctx P).2 ops, op.isGenerate = false) ∨
        (∀ op ∈ succeeded env (ingest env ctx P).2 ops, op.isCompile = false)) →
      ∀ args : List String,
        (execute env (runOps env (ingest env ctx P).2 ops) args).1
          = Except.error PipelineError.NoCompiledArtifactError := by
  have hg : (ingest env ctx P).2.generated = none := by
    simp only [ingest]; split <;> rfl
  have hc : (ingest env ctx P).2.compiled = none := by
    simp only [ingest]; split <;> rfl
  refine ⟨hc, ?_⟩
  intro ops h args
  have hnone : (runOps env (ingest env ctx P).2 ops).compiled = none := by
    cases h with
    | inl hgen => exact runOps_nothing_built env ops _ hg hc hgen
    | inr hcomp => exact runOps_compiled_none env ops _ hc hcomp
  simp [execute, hnone]

/-- C8 on the example pipeline: a context that went through a whole cycle
holds a compiled artifact and executes it; after ingesting the plan again,
and calling `compile` without a new generation, `execute` fails with
`NoCompiledArtifactError`. -/
theorem reingest_invalidates_compiled_witness :
    (execute sampleEnv
        (runOps sampleEnv Context.empty [Op.ingest samplePlan, Op.generate 0 1, Op.compile])
        ["a", "b"]).1 = Except.ok 2 ∧
    (execute sampleEnv
        (runOps sampleEnv
          (ingest sampleEnv
            (runOps sampleEnv Context.empty [Op.ingest samplePlan, Op.generate 0 1, Op.compile])
            samplePlan).2
          [Op.compile, Op.execute []])
        ["a", "b"]).1 = Except.error PipelineError.NoCompiledArtifactError :=
  ⟨by decide,
   (reingest_invalidates_compiled sampleEnv
      (runOps sampleEnv Context.empty [Op.ingest samplePlan, Op.generate 0 1, Op.compile])
      (by decide) samplePlan).2 [Op.compile, Op.execute []] (Or.inl (by decide)) ["a", "b"]⟩

end Pipeline

end AethraDB
